import Mathlib

/-!
Verification of `apple_monitor.py` (AppleMonitorSelenium).

The monitor's pure logic is embedded shallowly:
* JSON values decoded from the availability endpoint are the inductive `JValue`
  (Python `json` decoding of the fetch response); arrays and objects carry their
  own spine types `JArray`/`JObject` so that equality is decidable.
* Python `dict.get`, `dict.items`, `for`-iteration and truthiness are modelled by
  `pyGet`, `pyItems`, `pyIter`, `pyTruthy`; a Python exception raised by these
  operations is an `Except.error` carrying a message.
* The effectful boundary (Selenium driver, the in-page fetch, SMTP) is modelled by
  oracle outcome types (`ScriptOutcome`, `SmtpOutcome`): one cycle's environment
  behaviour is an input to the pure cycle function.
* `run_check`, `start_monitoring` and `cleanup` become state-transition functions on
  `MonitorState` (the `last_response` and `driver` slots of the Python object).
-/

namespace AppleMonitor

mutual

/-- A decoded JSON value, as produced by `response.json()` in the in-page fetch and
handed to Python as nested dicts/lists/scalars. Objects keep insertion order, as
Python dicts do. -/
inductive JValue where
  | null : JValue
  | bool (b : Bool) : JValue
  | num (n : Int) : JValue
  | str (s : String) : JValue
  | arr (xs : JArray) : JValue
  | obj (fields : JObject) : JValue
deriving DecidableEq, Repr

/-- The spine of a JSON array. -/
inductive JArray where
  | nil : JArray
  | cons (v : JValue) (rest : JArray) : JArray
deriving DecidableEq, Repr

/-- The spine of a JSON object: an ordered sequence of key/value pairs
(a decoded Python dict, so keys are distinct and order is insertion order). -/
inductive JObject where
  | nil : JObject
  | cons (k : String) (v : JValue) (rest : JObject) : JObject
deriving DecidableEq, Repr

end

/-- The elements of a JSON array as a `List`. -/
def JArray.toList : JArray → List JValue
  | .nil => []
  | .cons v rest => v :: rest.toList

/-- The key/value pairs of a JSON object as a `List`. -/
def JObject.toList : JObject → List (String × JValue)
  | .nil => []
  | .cons k v rest => (k, v) :: rest.toList

/-- Build a JSON array from a `List` (used for concrete sample inputs). -/
def JArray.ofList : List JValue → JArray
  | [] => .nil
  | v :: rest => .cons v (JArray.ofList rest)

/-- Build a JSON object from a `List` of pairs (used for concrete sample inputs). -/
def JObject.ofList : List (String × JValue) → JObject
  | [] => .nil
  | (k, v) :: rest => .cons k v (JObject.ofList rest)

/-- Python `v.get(key, default)`: succeeds on a dict (first binding of the key,
or the default when absent), raises `AttributeError` on any other value
(modelled as `Except.error`). -/
def pyGet (v : JValue) (key : String) (default : JValue) : Except String JValue :=
  match v with
  | .obj fields => .ok ((fields.toList.lookup key).getD default)
  | _ => .error "AttributeError: object has no attribute get"

/-- Python `v.items()`: succeeds on a dict, raises otherwise. -/
def pyItems (v : JValue) : Except String (List (String × JValue)) :=
  match v with
  | .obj fields => .ok fields.toList
  | _ => .error "AttributeError: object has no attribute items"

/-- Python `for store in stores` followed by `store.get(...)` on each element:
lists iterate to their elements; an empty string or empty dict iterates to
nothing; a non-empty string or dict yields elements without `.get` (the loop body
raises at the first element); other values are not iterable (`TypeError`). -/
def pyIter (v : JValue) : Except String (List JValue) :=
  match v with
  | .arr xs => .ok xs.toList
  | .str s => if s = "" then .ok [] else .error "AttributeError: object has no attribute get"
  | .obj .nil => .ok []
  | .obj (.cons _ _ _) => .error "AttributeError: object has no attribute get"
  | _ => .error "TypeError: object is not iterable"

/-- Python truthiness (`if not data`): empty containers, empty strings, zero,
`False` and `None` are falsy. -/
def pyTruthy (v : JValue) : Bool :=
  match v with
  | .null => false
  | .bool b => b
  | .num n => n != 0
  | .str s => s != ""
  | .arr .nil => false
  | .arr (.cons _ _) => true
  | .obj .nil => false
  | .obj (.cons _ _ _) => true

/-- The per-store record built by `parse_availability`:
`storeName`, `storeNumber` (JSON values, defaulted to the string `"Unknown"`) and
the mapping part number ↦ `pickupDisplay` value. -/
structure StoreInfo where
  storeName : JValue
  storeNumber : JValue
  partsAvailability : List (String × JValue)
deriving DecidableEq, Repr

/-- The `availability_info` dict built by `parse_availability` on success:
timestamp, per-store records, and the `has_availability` flag. -/
structure Snapshot where
  timestamp : String
  stores : List StoreInfo
  has_availability : Bool
deriving DecidableEq, Repr

/-- The dict returned by `parse_availability`: either the snapshot, or — on a caught
exception — the error-tagged dict holding `str(e)` and the timestamp. -/
inductive ParseResult where
  | snapshot (s : Snapshot) : ParseResult
  | errorResult (msg : String) (timestamp : String) : ParseResult
deriving DecidableEq, Repr

/-- The chained lookup
`data.get('body', ...).get('content', ...).get('pickupMessage', ...).get('stores', [])`
with empty-dict defaults at each level and `[]` at the last. -/
def extractStores (data : JValue) : Except String JValue := do
  let b ← pyGet data "body" (.obj .nil)
  let c ← pyGet b "content" (.obj .nil)
  let p ← pyGet c "pickupMessage" (.obj .nil)
  pyGet p "stores" (.arr .nil)

/-- Python `availability == 'available'`: true exactly when the value is the
string `'available'`. -/
def isAvailableValue (v : JValue) : Bool :=
  match v with
  | .str s => s == "available"
  | _ => false

/-- The inner loop over `parts.items()`: collects
`(part_number, part_info.get('pickupDisplay', 'Unknown'))` pairs and whether any
availability value equals the string `'available'`. -/
def parseParts : List (String × JValue) → Except String (List (String × JValue) × Bool)
  | [] => .ok ([], false)
  | (partNumber, partInfo) :: rest => do
      let availability ← pyGet partInfo "pickupDisplay" (.str "Unknown")
      let (restParts, restFlag) ← parseParts rest
      .ok ((partNumber, availability) :: restParts,
           (isAvailableValue availability || restFlag))

/-- The outer loop over the stores: builds each `store_info` record
(name and number defaulted to `'Unknown'`) and accumulates the
`has_availability` flag. -/
def parseStoreList : List JValue → Except String (List StoreInfo × Bool)
  | [] => .ok ([], false)
  | store :: rest => do
      let name ← pyGet store "storeName" (.str "Unknown")
      let number ← pyGet store "storeNumber" (.str "Unknown")
      let partsVal ← pyGet store "partsAvailability" (.obj .nil)
      let entries ← pyItems partsVal
      let (parts, flag) ← parseParts entries
      let (restStores, restFlag) ← parseStoreList rest
      .ok (⟨name, number, parts⟩ :: restStores, (flag || restFlag))

/-- `parse_availability(data)`: extract the stores list, walk it building the
snapshot; any raised exception is caught and turned into the error-tagged result.
`now` is the value of `datetime.now().isoformat()` for this call. -/
def parse_availability (data : JValue) (now : String) : ParseResult :=
  match (do
    let storesVal ← extractStores data
    let stores ← pyIter storesVal
    parseStoreList stores : Except String (List StoreInfo × Bool)) with
  | .ok (stores, flag) => .snapshot ⟨now, stores, flag⟩
  | .error e => .errorResult e now

/-- What the environment (driver setup, page navigation, `execute_async_script`)
does during one call of `check_availability`:
* `setupFailure`: `webdriver.Chrome(...)` raised `WebDriverException` (re-raised
  by `setup_driver`, caught by `check_availability`; the driver slot stays empty);
* `timeout`: a `TimeoutException` during the check;
* `webDriverError`: a `WebDriverException` during the check;
* `unexpectedError`: any other exception during the check;
* `scriptResult`: the script completed and returned the decoded value
  (the fetch's JSON on success, or a dict with an `error` key built by the
  script's catch handler). -/
inductive ScriptOutcome where
  | setupFailure (msg : String) : ScriptOutcome
  | timeout : ScriptOutcome
  | webDriverError (msg : String) : ScriptOutcome
  | unexpectedError (msg : String) : ScriptOutcome
  | scriptResult (v : JValue) : ScriptOutcome
deriving DecidableEq, Repr

/-- What the SMTP relay does during one call of `send_email`: delivery succeeds,
or some step (connect, STARTTLS, login, send) raises. -/
inductive SmtpOutcome where
  | success : SmtpOutcome
  | failure (msg : String) : SmtpOutcome
deriving DecidableEq, Repr

/-- Python `'error' in result` on a dict. -/
def hasErrorKey (fields : JObject) : Bool :=
  fields.toList.any (fun p => p.1 == "error")

/-- Python `len(v)`: defined for strings, lists and dicts; raises `TypeError`
for numbers, booleans and `None`. -/
def pyLen (v : JValue) : Except String Nat :=
  match v with
  | .str s => .ok s.length
  | .arr xs => .ok xs.toList.length
  | .obj fields => .ok fields.toList.length
  | _ => .error "TypeError: object has no len"

/-- `check_availability`: ensure a driver exists, navigate, run the in-page fetch;
return the decoded dict, or `None` on any error (`TimeoutException`,
`WebDriverException`, any other exception, a non-dict script result, or a dict
carrying an `error` key). Before `return result`, the `logger.info` f-string
re-runs the chained `.get` (`extractStores`, the same chain `parse_availability`
uses) and `len()` on the store count inside the `try`; an exception there
(non-dict `body`/`content`/`pickupMessage`, or a `stores` value without `len`)
is caught by the catch-all handler and also yields `None`. Returns the new
driver slot and the optional data. The driver slot stays empty when setup
raised and is occupied otherwise. -/
def check_availability (driver : Option Unit) (o : ScriptOutcome) :
    Option Unit × Option JValue :=
  match o with
  | .setupFailure _ => (driver, none)
  | .timeout => (some (), none)
  | .webDriverError _ => (some (), none)
  | .unexpectedError _ => (some (), none)
  | .scriptResult v =>
      match v with
      | .obj fields =>
          if hasErrorKey fields then (some (), none)
          else
            match Except.bind (extractStores v) pyLen with
            | .ok _ => (some (), some v)
            | .error _ => (some (), none)
      | _ => (some (), none)

/-- `send_email`: build the message and deliver it over SMTP; `True` on success,
`False` when any step raised (the exception is caught and logged). -/
def send_email (o : SmtpOutcome) : Bool :=
  match o with
  | .success => true
  | .failure _ => false

/-- Python `str(v)` as used by the f-strings in `format_email_body`; the rendering
of containers is abbreviated (the claims only format scalar fields). -/
def pyStr (v : JValue) : String :=
  match v with
  | .null => "None"
  | .bool b => if b then "True" else "False"
  | .num n => toString n
  | .str s => s
  | .arr _ => "[...]"
  | .obj _ => "\x7b...\x7d"

/-- The `"=" * 50` separator line. -/
def eqLine : String := String.mk (List.replicate 50 '=')

/-- One store's block in the email body: the `Store: name (#number)` line, one
indented line per part, and a blank line. -/
def formatStore (s : StoreInfo) : String :=
  "Store: " ++ pyStr s.storeName ++ " (#" ++ pyStr s.storeNumber ++ ")\n" ++
  String.join (s.partsAvailability.map (fun p => "  " ++ p.1 ++ ": " ++ pyStr p.2 ++ "\n")) ++
  "\n"

/-- `format_email_body`: header with timestamp, availability banner, separator,
then one block per store. -/
def format_email_body (info : Snapshot) : String :=
  "Apple Store Availability Check - " ++ info.timestamp ++ "\n\n" ++
  (if info.has_availability then "🎉 PRODUCT AVAILABLE!\n\n" else "❌ Product not available\n\n") ++
  "Store Details:\n" ++ eqLine ++ "\n" ++
  String.join (info.stores.map formatStore)

/-- Python `availability_info.get('has_availability')` truthiness: the snapshot's
flag; an error-tagged dict has no such key, so the lookup yields `None` (falsy). -/
def resultHasAvail (r : ParseResult) : Bool :=
  match r with
  | .snapshot s => s.has_availability
  | .errorResult _ _ => false

/-- The mutable slots of the `AppleMonitorSelenium` object that the loop uses:
`last_response` (`None` initially) and `driver` (`None` initially). -/
structure MonitorState where
  last_response : Option ParseResult
  driver : Option Unit
deriving DecidableEq, Repr

/-- The state after `__init__`. -/
def initialState : MonitorState := ⟨none, none⟩

/-- The environment's behaviour during one cycle: what the browser/script does,
the timestamp `datetime.now().isoformat()` returns during parsing, and what the
SMTP relay does if an email is attempted. -/
structure CycleInput where
  script : ScriptOutcome
  timestamp : String
  smtp : SmtpOutcome
deriving DecidableEq, Repr

/-- The observable result of one `run_check` call: the new object state and the
outcomes of the `send_email` calls made (in order; the list length is the number
of notification attempts). -/
structure CycleResult where
  state : MonitorState
  emails : List Bool
deriving DecidableEq, Repr

/-- `run_check`: one availability check. On no data (`None` or a falsy dict),
return. Otherwise parse; if the result differs from `last_response`, store it and
— only when it reports availability — send one email (its Boolean result is
discarded). -/
def run_check (st : MonitorState) (inp : CycleInput) : CycleResult :=
  let checked := check_availability st.driver inp.script
  match checked.2 with
  | none => ⟨⟨st.last_response, checked.1⟩, []⟩
  | some data =>
    if pyTruthy data = false then
      ⟨⟨st.last_response, checked.1⟩, []⟩
    else
      let info := parse_availability data inp.timestamp
      if st.last_response = some info then
        ⟨⟨st.last_response, checked.1⟩, []⟩
      else if resultHasAvail info then
        ⟨⟨some info, checked.1⟩, [send_email inp.smtp]⟩
      else
        ⟨⟨some info, checked.1⟩, []⟩

/-- `cleanup`: quit the driver if present and clear the slot. -/
def cleanup (st : MonitorState) : MonitorState :=
  ⟨st.last_response, none⟩

/-- One iteration of the `start_monitoring` loop body:
`run_check` followed by the per-cycle `cleanup`. -/
def monitor_cycle (st : MonitorState) (inp : CycleInput) : CycleResult :=
  let r := run_check st inp
  ⟨cleanup r.state, r.emails⟩

/-- `start_monitoring` observed over a finite trace: the loop runs one
`monitor_cycle` per environment input; when it exits (interrupt during sleep, or
any exception propagating out of the `while`), the `finally` block runs a final
`cleanup`. The result is the state after the final cleanup. -/
def start_monitoring (st : MonitorState) (inps : List CycleInput) : MonitorState :=
  cleanup (inps.foldl (fun s i => (monitor_cycle s i).state) st)

/-- Whether `needle` occurs as a contiguous run inside `hay`. -/
def containsSub (needle : List Char) : List Char → Bool
  | [] => needle.isEmpty
  | c :: t => needle.isPrefixOf (c :: t) || containsSub needle t

/-- Whether the string `needle` occurs inside the string `hay`. -/
def strContainsSub (hay needle : String) : Bool :=
  containsSub needle.data hay.data

/-- The sample response of the spec: two stores, one part `"available"` at the
first and `"unavailable"` at the second. -/
def sampleStores : JArray :=
  JArray.ofList
    [.obj (JObject.ofList
        [("storeName", .str "Alpha Mall"),
         ("storeNumber", .str "R001"),
         ("partsAvailability", .obj (JObject.ofList
            [("MFXG4LL/A", .obj (JObject.ofList [("pickupDisplay", .str "available")]))]))]),
     .obj (JObject.ofList
        [("storeName", .str "Beta Center"),
         ("storeNumber", .str "R002"),
         ("partsAvailability", .obj (JObject.ofList
            [("MFXG4LL/A", .obj (JObject.ofList [("pickupDisplay", .str "unavailable")]))]))])]

/-- The sample response wrapped in the `body.content.pickupMessage.stores` path. -/
def sampleResponse : JValue :=
  .obj (JObject.ofList
    [("body", .obj (JObject.ofList
      [("content", .obj (JObject.ofList
        [("pickupMessage", .obj (JObject.ofList
          [("stores", .arr sampleStores)]))]))]))])

/-- The snapshot `parse_availability` produces from `sampleResponse`. -/
def sampleSnapshot : Snapshot :=
  ⟨"2026-01-01T00:00:00",
   [⟨.str "Alpha Mall", .str "R001", [("MFXG4LL/A", .str "available")]⟩,
    ⟨.str "Beta Center", .str "R002", [("MFXG4LL/A", .str "unavailable")]⟩],
   true⟩

/-- A response whose stores list is `[42]`: the log line's `len([42])` succeeds,
so `check_availability` returns the dict, but `parse_availability` then raises
at `(42).get('storeName', ...)` and produces the error-tagged result. -/
def badStoreResponse : JValue :=
  .obj (JObject.ofList
    [("body", .obj (JObject.ofList
      [("content", .obj (JObject.ofList
        [("pickupMessage", .obj (JObject.ofList
          [("stores", .arr (JArray.ofList [.num 42]))]))]))]))])

/-- Whether a JSON value is an object (a decoded Python dict). -/
def isObjValue (v : JValue) : Bool :=
  match v with
  | .obj _ => true
  | _ => false

/-- The `pickupDisplay` value of a part-info dict, defaulted to `"Unknown"`
(the value `part_info.get('pickupDisplay', 'Unknown')` computes). -/
def pickupOf (pinfo : JValue) : JValue :=
  match pinfo with
  | .obj pf => (pf.toList.lookup "pickupDisplay").getD (.str "Unknown")
  | _ => .str "Unknown"

/-- Whether a part-info dict reports pickup as exactly the string `'available'`. -/
def partIsAvailable (pinfo : JValue) : Bool :=
  isAvailableValue (pickupOf pinfo)

/-- The `partsAvailability` value of a store dict, defaulted to the empty dict. -/
def storeParts (store : JValue) : JValue :=
  match store with
  | .obj fields => (fields.toList.lookup "partsAvailability").getD (.obj .nil)
  | _ => .null

/-- Whether some part of the store has `pickupDisplay` exactly `'available'`. -/
def storeHasAvailablePart (store : JValue) : Bool :=
  match storeParts store with
  | .obj entries => entries.toList.any (fun p => partIsAvailable p.2)
  | _ => false

/-- A store entry the parser walks without raising: a dict whose
`partsAvailability` (defaulted to the empty dict) is a dict of dicts. -/
def wellFormedStore (store : JValue) : Bool :=
  isObjValue store &&
  (match storeParts store with
   | .obj entries => entries.toList.all (fun p => isObjValue p.2)
   | _ => false)

/-- The record `parse_availability` builds for one well-formed store:
`storeName` and `storeNumber` defaulted to the string `"Unknown"` when absent,
and each part's `pickupDisplay` likewise. -/
def parsedStore (store : JValue) : StoreInfo :=
  match store with
  | .obj fields =>
      ⟨(fields.toList.lookup "storeName").getD (.str "Unknown"),
       (fields.toList.lookup "storeNumber").getD (.str "Unknown"),
       (match (fields.toList.lookup "partsAvailability").getD (.obj .nil) with
        | .obj entries => entries.toList.map (fun p => (p.1, pickupOf p.2))
        | _ => [])⟩
  | _ => ⟨.str "Unknown", .str "Unknown", []⟩

/-- Computation rule for `Except` binds on a success value. -/
theorem exceptBindOk {α β : Type} (x : α) (f : α → Except String β) :
    (Except.ok x >>= f) = f x := rfl

/-- `parseParts` on a list of part-info dicts: collects each `pickupDisplay`
(defaulted) and flags whether any part is available. -/
theorem parseParts_wf (l : List (String × JValue))
    (h : ∀ p ∈ l, isObjValue p.2 = true) :
    parseParts l = .ok (l.map (fun p => (p.1, pickupOf p.2)),
                        l.any (fun p => partIsAvailable p.2)) := by
  induction l with
  | nil => rfl
  | cons p rest ih =>
      obtain ⟨k, pinfo⟩ := p
      have hp : isObjValue pinfo = true := h _ (List.mem_cons_self _ _)
      have hrest := ih (fun q hq => h q (List.mem_cons_of_mem _ hq))
      cases pinfo with
      | obj pf =>
          unfold parseParts
          rw [hrest]
          rfl
      | null => exact Bool.noConfusion hp
      | bool b => exact Bool.noConfusion hp
      | num n => exact Bool.noConfusion hp
      | str s => exact Bool.noConfusion hp
      | arr xs => exact Bool.noConfusion hp

/-- `parseStoreList` on a list of well-formed stores: builds `parsedStore` for
each and flags whether any store has an available part. -/
theorem parseStoreList_wf (xs : List JValue)
    (h : ∀ s ∈ xs, wellFormedStore s = true) :
    parseStoreList xs = .ok (xs.map parsedStore, xs.any storeHasAvailablePart) := by
  induction xs with
  | nil => rfl
  | cons store rest ih =>
      have hs : wellFormedStore store = true := h _ (List.mem_cons_self _ _)
      have hrest := ih (fun q hq => h q (List.mem_cons_of_mem _ hq))
      cases store with
      | obj fields =>
          cases hpv : (fields.toList.lookup "partsAvailability").getD (.obj .nil) with
          | obj entries =>
              have hall : ∀ p ∈ entries.toList, isObjValue p.2 = true := by
                simp only [wellFormedStore, storeParts] at hs
                rw [hpv] at hs
                simpa [isObjValue, List.all_eq_true] using hs
              have hpg : pyGet (JValue.obj fields) "partsAvailability" (.obj .nil)
                  = .ok (.obj entries) := by
                simp [pyGet, hpv]
              unfold parseStoreList
              rw [hpg]
              simp only [exceptBindOk]
              rw [show pyItems (JValue.obj entries) = .ok entries.toList from rfl]
              simp only [exceptBindOk]
              rw [parseParts_wf entries.toList hall, hrest]
              simp only [exceptBindOk, pyGet]
              simp [parsedStore, storeHasAvailablePart, storeParts, hpv, partIsAvailable]
          | null =>
              exact absurd hs (by simp [wellFormedStore, storeParts, hpv])
          | bool b =>
              exact absurd hs (by simp [wellFormedStore, storeParts, hpv])
          | num n =>
              exact absurd hs (by simp [wellFormedStore, storeParts, hpv])
          | str s =>
              exact absurd hs (by simp [wellFormedStore, storeParts, hpv])
          | arr ys =>
              exact absurd hs (by simp [wellFormedStore, storeParts, hpv])
      | null => exact Bool.noConfusion hs
      | bool b => exact Bool.noConfusion hs
      | num n => exact Bool.noConfusion hs
      | str s => exact Bool.noConfusion hs
      | arr ys => exact Bool.noConfusion hs

/-- C7: for every response whose extracted stores list is empty,
`parse_availability` returns a snapshot with no stores and `has_availability`
false. -/
theorem empty_stores_snapshot (data : JValue) (now : String)
    (h : extractStores data = .ok (.arr .nil)) :
    parse_availability data now = .snapshot ⟨now, [], false⟩ := by
  unfold parse_availability
  rw [h]
  rfl

/-- Witness for `empty_stores_snapshot`: the empty-object response extracts an
empty stores list and parses to the empty snapshot. -/
theorem empty_stores_snapshot_witness :
    parse_availability (.obj .nil) "t0" = .snapshot ⟨"t0", [], false⟩ :=
  empty_stores_snapshot (.obj .nil) "t0" rfl

/-- C3: when `check_availability` produces no data, `run_check` leaves
`last_response` unchanged and attempts no notification. -/
theorem failed_check_frame (st : MonitorState) (inp : CycleInput)
    (h : (check_availability st.driver inp.script).2 = none) :
    (run_check st inp).state.last_response = st.last_response ∧
    (run_check st inp).emails = [] := by
  simp [run_check, h]

/-- Witness for `failed_check_frame`: a timed-out check changes nothing and sends
nothing. -/
theorem failed_check_frame_witness :
    (run_check initialState ⟨.timeout, "t0", .success⟩).state.last_response =
      initialState.last_response ∧
    (run_check initialState ⟨.timeout, "t0", .success⟩).emails = [] :=
  failed_check_frame initialState ⟨.timeout, "t0", .success⟩ rfl

/-- C5: the driver slot is cleared by every loop iteration (`run_check` followed
by the per-cycle `cleanup`), by the final `cleanup` of every exit path, and hence
at the end of any finite monitoring trace. -/
theorem teardown_every_cycle :
    (∀ st inp, ((monitor_cycle st inp).state).driver = none) ∧
    (∀ st, (cleanup st).driver = none) ∧
    (∀ st inps, (start_monitoring st inps).driver = none) :=
  ⟨fun _ _ => rfl, fun _ => rfl, fun _ _ => rfl⟩

/-- C1: when the check yields (truthy) data that parses to a snapshot with
`has_availability` true and that snapshot differs from the stored
`last_response`, `run_check` makes exactly one `send_email` call and stores the
new snapshot. -/
theorem availability_change_notifies (st : MonitorState) (inp : CycleInput)
    (data : JValue) (s : Snapshot)
    (h : (check_availability st.driver inp.script).2 = some data)
    (ht : pyTruthy data = true)
    (hp : parse_availability data inp.timestamp = .snapshot s)
    (ha : s.has_availability = true)
    (hne : st.last_response ≠ some (.snapshot s)) :
    (run_check st inp).state.last_response = some (.snapshot s) ∧
    (run_check st inp).emails = [send_email inp.smtp] := by
  simp [run_check, h, ht, hp, resultHasAvail, ha, hne]

/-- Witness for `availability_change_notifies`: from the initial state, the sample
response triggers exactly one notification attempt and is stored. -/
theorem availability_change_notifies_witness :
    (run_check initialState ⟨.scriptResult sampleResponse, "2026-01-01T00:00:00", .success⟩).state.last_response
      = some (.snapshot sampleSnapshot) ∧
    (run_check initialState ⟨.scriptResult sampleResponse, "2026-01-01T00:00:00", .success⟩).emails
      = [send_email .success] :=
  availability_change_notifies initialState
    ⟨.scriptResult sampleResponse, "2026-01-01T00:00:00", .success⟩
    sampleResponse sampleSnapshot rfl rfl rfl rfl (by simp [initialState])

/-- C2: when the parsed result is structurally identical to the stored
`last_response`, `run_check` sends nothing and leaves `last_response` unchanged. -/
theorem identical_snapshot_no_notification (st : MonitorState) (inp : CycleInput)
    (data : JValue)
    (h : (check_availability st.driver inp.script).2 = some data)
    (ht : pyTruthy data = true)
    (he : st.last_response = some (parse_availability data inp.timestamp)) :
    (run_check st inp).state.last_response = st.last_response ∧
    (run_check st inp).emails = [] := by
  simp [run_check, h, ht, he]

/-- Witness for `identical_snapshot_no_notification`: re-checking the sample
response against a state already holding its parse changes nothing. -/
theorem identical_snapshot_no_notification_witness :
    (run_check ⟨some (parse_availability sampleResponse "2026-01-01T00:00:00"), none⟩
        ⟨.scriptResult sampleResponse, "2026-01-01T00:00:00", .success⟩).state.last_response
      = some (parse_availability sampleResponse "2026-01-01T00:00:00") ∧
    (run_check ⟨some (parse_availability sampleResponse "2026-01-01T00:00:00"), none⟩
        ⟨.scriptResult sampleResponse, "2026-01-01T00:00:00", .success⟩).emails = [] :=
  identical_snapshot_no_notification
    ⟨some (parse_availability sampleResponse "2026-01-01T00:00:00"), none⟩
    ⟨.scriptResult sampleResponse, "2026-01-01T00:00:00", .success⟩
    sampleResponse rfl rfl rfl

/-- C4 counterexample: a cycle whose parse fails — the response's stores list is
`[42]`, which passes the log line's `len()` so the check returns data, but whose
element then breaks `store.get` — does alter the stored `last_response`: the
error-tagged result is stored, contradicting the claim that no error cycle
alters the stored last snapshot. -/
theorem parse_error_updates_last_response_cex :
    (run_check initialState ⟨.scriptResult badStoreResponse, "t0", .success⟩).state.last_response ≠
      initialState.last_response := by
  decide

/-- C4 (amended): every per-cycle error is caught (the cycle function is total)
and triggers no notification; a failed check leaves `last_response` unchanged;
a parse failure yields an error-tagged result that is stored as `last_response`
exactly when it differs from the stored value (and leaves it unchanged when
equal). -/
theorem error_cycle_contract (st : MonitorState) (inp : CycleInput)
    (h : (check_availability st.driver inp.script).2 = none ∨
         ∃ data e, (check_availability st.driver inp.script).2 = some data ∧
           pyTruthy data = true ∧
           parse_availability data inp.timestamp = .errorResult e inp.timestamp) :
    (run_check st inp).emails = [] ∧
    ((check_availability st.driver inp.script).2 = none →
      (run_check st inp).state.last_response = st.last_response) ∧
    (∀ data e, (check_availability st.driver inp.script).2 = some data →
      pyTruthy data = true →
      parse_availability data inp.timestamp = .errorResult e inp.timestamp →
      (run_check st inp).state.last_response =
        (if st.last_response = some (.errorResult e inp.timestamp) then st.last_response
         else some (.errorResult e inp.timestamp))) := by
  refine ⟨?_, ?_, ?_⟩
  · rcases h with h | ⟨data, e, h, ht, hp⟩
    · simp [run_check, h]
    · by_cases hlast : st.last_response = some (.errorResult e inp.timestamp)
      · simp [run_check, h, ht, hp, hlast]
      · simp [run_check, h, ht, hp, hlast, resultHasAvail]
  · intro hn
    simp [run_check, hn]
  · intro data e hd ht hp
    by_cases hlast : st.last_response = some (.errorResult e inp.timestamp)
    · simp [run_check, hd, ht, hp, hlast]
    · simp [run_check, hd, ht, hp, hlast, resultHasAvail]

/-- Witness for `error_cycle_contract`: the parse-failure cycle on
`badStoreResponse` sends nothing and stores the error-tagged result. -/
theorem error_cycle_contract_witness :
    (run_check initialState ⟨.scriptResult badStoreResponse, "t0", .success⟩).emails = [] ∧
    (run_check initialState ⟨.scriptResult badStoreResponse, "t0", .success⟩).state.last_response
      = some (.errorResult "AttributeError: object has no attribute get" "t0") := by
  have h := error_cycle_contract initialState
    ⟨.scriptResult badStoreResponse, "t0", .success⟩
    (Or.inr ⟨badStoreResponse, "AttributeError: object has no attribute get", rfl, rfl, rfl⟩)
  refine ⟨h.1, ?_⟩
  have h3 := h.2.2 badStoreResponse "AttributeError: object has no attribute get" rfl rfl rfl
  simpa [initialState] using h3

/-- C8: `check_availability` returns either a decoded dict without an `error` key
or `None`; it returns data exactly when the script completed with such a dict
and the logging line's re-run of the chained `.get` and `len()` succeeds, so
every error outcome (setup failure, timeout, WebDriver error, other exception,
non-dict result, dict with an `error` key, or a dict breaking the log line's
chain) yields `None`; being a total function, it never raises. -/
theorem check_availability_contract (d : Option Unit) (o : ScriptOutcome) :
    ((check_availability d o).2 = none ∨
      ∃ fields, (check_availability d o).2 = some (.obj fields) ∧
        hasErrorKey fields = false) ∧
    (∀ v, (check_availability d o).2 = some v ↔
      (o = .scriptResult v ∧ (∃ fields, v = .obj fields ∧ hasErrorKey fields = false) ∧
       ∃ n, Except.bind (extractStores v) pyLen = .ok n)) := by
  cases o with
  | setupFailure m => simp [check_availability]
  | timeout => simp [check_availability]
  | webDriverError m => simp [check_availability]
  | unexpectedError m => simp [check_availability]
  | scriptResult v =>
    cases v with
    | obj fields =>
      rcases Bool.eq_false_or_eq_true (hasErrorKey fields) with h | h
      · constructor
        · exact Or.inl (by simp [check_availability, h])
        · intro w
          constructor
          · intro hw
            rw [show (check_availability d (.scriptResult (.obj fields))).2 = none from
                  by simp [check_availability, h]] at hw
            exact Option.noConfusion hw
          · rintro ⟨hv, ⟨f2, hw, hf⟩, -⟩
            injection hv with hv
            subst hv
            obtain rfl : fields = f2 := by injection hw
            exact absurd hf (by simp [h])
      · cases hlen : Except.bind (extractStores (JValue.obj fields)) pyLen with
        | ok n =>
            have hc : (check_availability d (.scriptResult (.obj fields))).2
                = some (.obj fields) := by
              simp [check_availability, h, hlen]
            refine ⟨Or.inr ⟨fields, hc, h⟩, fun w => ?_⟩
            constructor
            · intro hw
              rw [hc] at hw
              injection hw with hw
              subst hw
              exact ⟨rfl, ⟨fields, rfl, h⟩, n, hlen⟩
            · rintro ⟨hv, ⟨f2, hw, hf⟩, m, hm⟩
              injection hv with hv
              subst hv
              exact hc
        | error e =>
            have hc : (check_availability d (.scriptResult (.obj fields))).2 = none := by
              simp [check_availability, h, hlen]
            refine ⟨Or.inl hc, fun w => ?_⟩
            constructor
            · intro hw
              rw [hc] at hw
              exact Option.noConfusion hw
            · rintro ⟨hv, ⟨f2, hw, hf⟩, m, hm⟩
              injection hv with hv
              subst hv
              rw [hlen] at hm
              exact Except.noConfusion hm
    | null => simp [check_availability]
    | bool b => simp [check_availability]
    | num n => simp [check_availability]
    | str s => simp [check_availability]
    | arr xs => simp [check_availability]

/-- C9: `send_email` reports `True` exactly on successful delivery and `False` on
failure (never raising, being total), and `run_check` ignores that result: the
resulting state and the number of notification attempts are the same whatever the
SMTP relay does. -/
theorem send_email_result_ignored (st : MonitorState) (sc : ScriptOutcome)
    (ts : String) (o o' : SmtpOutcome) :
    send_email .success = true ∧ (∀ m, send_email (.failure m) = false) ∧
    (run_check st ⟨sc, ts, o⟩).state = (run_check st ⟨sc, ts, o'⟩).state ∧
    (run_check st ⟨sc, ts, o⟩).emails.length = (run_check st ⟨sc, ts, o'⟩).emails.length := by
  refine ⟨rfl, fun _ => rfl, ?_, ?_⟩ <;>
  · simp only [run_check]
    cases (check_availability st.driver sc).2 with
    | none => rfl
    | some data =>
        repeat' split
        all_goals rfl

set_option maxRecDepth 4096 in
/-- C6: the sample two-store response (one part `"available"`, one
`"unavailable"`) parses to a snapshot whose `has_availability` flag is true, and
the formatted email body lists both stores — name and number — each with its
part's status line. -/
theorem sample_response_parse_and_email :
    parse_availability sampleResponse "2026-01-01T00:00:00" = .snapshot sampleSnapshot ∧
    sampleSnapshot.has_availability = true ∧
    strContainsSub (format_email_body sampleSnapshot)
      "Store: Alpha Mall (#R001)\n  MFXG4LL/A: available\n" = true ∧
    strContainsSub (format_email_body sampleSnapshot)
      "Store: Beta Center (#R002)\n  MFXG4LL/A: unavailable\n" = true := by
  refine ⟨rfl, rfl, ?_, ?_⟩ <;> decide

/-- C10: for a response whose extracted stores list walks without raising
(each store a dict whose parts mapping is a dict of dicts), `parse_availability`
returns the snapshot whose stores are the parsed records — `storeName`,
`storeNumber` and each part's `pickupDisplay` defaulted to the string
`"Unknown"` when missing — and whose `has_availability` flag is true iff some
store has some part whose `pickupDisplay` is exactly the string `'available'`
(a defaulted `"Unknown"` never counts). -/
theorem has_availability_iff (data : JValue) (now : String) (storesArr : JArray)
    (hex : extractStores data = .ok (.arr storesArr))
    (hwf : ∀ s ∈ storesArr.toList, wellFormedStore s = true) :
    parse_availability data now =
      .snapshot ⟨now, storesArr.toList.map parsedStore,
                 storesArr.toList.any storeHasAvailablePart⟩ ∧
    (storesArr.toList.any storeHasAvailablePart = true ↔
      ∃ s ∈ storesArr.toList, storeHasAvailablePart s = true) := by
  constructor
  · have hscrut : (do
        let storesVal ← extractStores data
        let stores ← pyIter storesVal
        parseStoreList stores : Except String (List StoreInfo × Bool))
      = parseStoreList storesArr.toList := by
      rw [hex]
      rfl
    unfold parse_availability
    rw [hscrut, parseStoreList_wf _ hwf]
  · simp [List.any_eq_true]

/-- Witness for `has_availability_iff`: the sample response's stores are
well-formed, parse to the two expected records, and the flag is true exactly
because the first store has an available part. -/
theorem has_availability_iff_witness :
    parse_availability sampleResponse "2026-01-01T00:00:00" =
      .snapshot ⟨"2026-01-01T00:00:00", sampleStores.toList.map parsedStore,
                 sampleStores.toList.any storeHasAvailablePart⟩ ∧
    (sampleStores.toList.any storeHasAvailablePart = true ↔
      ∃ s ∈ sampleStores.toList, storeHasAvailablePart s = true) :=
  has_availability_iff sampleResponse "2026-01-01T00:00:00" sampleStores rfl (by decide)

end AppleMonitor
